import Mathlib

/-!
Verification of the selector-resolution, column-extraction and table-assembly
logic of the web-scraper program in src/new_scrape.py, together with its
HTTP/Selenium acquisition wrappers and the page-inspector debug helper.

The embedding is shallow:
an HTML document is a list of elements in document order, each carrying its
tag name, its class attribute (as the list of whitespace-separated tokens
that the html.parser backend of BeautifulSoup produces), its optional href
attribute and its visible text (already stripped, modelling
element.get_text with strip=True).  Python dictionaries keyed by column
name are modelled as association lists whose keys are in first-insertion
order, python regular-expression searches over the fixed literal patterns
of the program are modelled as literal substring searches, and the fallible
Python conversions int() and float() are modelled as Option-valued
functions that succeed exactly on the string shapes those builtins accept
among the strings this program can pass to them.
-/

namespace Scrape

/-! ### Character-list helpers (models of Python string primitives) -/

/-- Greedy span of leading ASCII digits: models the regex fragment matching a
maximal run of decimal digits at the head of the input.  Returns the run and
the remainder. -/
def spanDigits : List Char → List Char × List Char
  | [] => ([], [])
  | c :: cs =>
    if c.isDigit then (c :: (spanDigits cs).1, (spanDigits cs).2)
    else ([], c :: cs)

/-- Value of a list of decimal digits, most significant first: models how
Python int() reads an all-digit string. -/
def digitsToNat (l : List Char) : Nat :=
  l.foldl (fun a c => a * 10 + (c.toNat - 48)) 0

/-- Model of the Python membership test for a dot inside a matched string,
as in the source expression checking for a decimal point in numbers[0]
(src/new_scrape.py line 252). -/
def containsDot (l : List Char) : Bool :=
  l.any (fun c => c == '.')

/-- Does the list start with the given first argument?  Own structural
implementation of a starts-with test on character lists. -/
def listStarts : List Char → List Char → Bool
  | [], _ => true
  | _ :: _, [] => false
  | p :: ps, c :: cs => p == c && listStarts ps cs

/-- Literal substring search: models re.search with a pattern that is a
plain literal (no metacharacters), i.e. whether the needle occurs
contiguously anywhere inside the haystack. -/
def hasSub (hay needle : List Char) : Bool :=
  match hay with
  | [] => needle.isEmpty
  | c :: t => listStarts needle (c :: t) || hasSub t needle

/-- Split a character list on the dot character; models the Python call
css_class.split on a dot (src/new_scrape.py line 219).  Adjacent or
leading/trailing dots yield empty parts, exactly as in Python. -/
def splitOnDot : List Char → List (List Char)
  | [] => [[]]
  | c :: cs =>
    if c == '.' then [] :: splitOnDot cs
    else
      match splitOnDot cs with
      | [] => [[c]]
      | h :: t => (c :: h) :: t

/-- Split a character list at its first dot: the part before the dot and,
when a dot exists, the part after it.  Used to model how Python float()
reads a decimal literal. -/
def breakDot : List Char → List Char × Option (List Char)
  | [] => ([], none)
  | c :: cs =>
    if c == '.' then ([], some cs)
    else ((c :: (breakDot cs).1), (breakDot cs).2)

/-! ### Models of the fallible Python numeric conversions -/

/-- Model of Python int() restricted to the strings this program can pass
it, namely substrings matched by the number regex: it succeeds exactly on a
non-empty all-digit string and returns its decimal value, and fails (raises
ValueError, modelled as none) otherwise. -/
def pyInt (l : List Char) : Option Nat :=
  if l.isEmpty then none
  else if l.all Char.isDigit then some (digitsToNat l) else none

/-- Model of Python float() restricted to unsigned decimal literals made of
digits and at most one dot (the only shapes this program can pass it).  A
successful parse of a string with integer digits a and fractional digits b
is represented exactly as the pair (decimal mantissa of a ++ b, number of
fractional digits), i.e. the decimal value mantissa / 10 ^ scale; this
avoids binary floating point, which no claim here depends on.  float()
fails on a bare dot, on a second dot and on any non-digit, modelled as
none. -/
def pyFloat (l : List Char) : Option (Nat × Nat) :=
  match breakDot l with
  | (a, none) =>
    if !a.isEmpty && a.all Char.isDigit then some (digitsToNat a, 0) else none
  | (a, some b) =>
    if a.all Char.isDigit && b.all Char.isDigit && !(a ++ b).isEmpty then
      some (digitsToNat (a ++ b), b.length)
    else none

/-! ### The extracted-value model -/

/-- Tagged union of the values the extractor appends to a column:
plain text, an absolutised link, a Python int, a Python float (represented
exactly as mantissa and decimal scale, value mantissa / 10 ^ scale), or the
absent marker None. -/
inductive Value where
  | text : String → Value
  | link : String → Value
  | intNum : Nat → Value
  | floatNum : Nat → Nat → Value
  | absent : Value
deriving DecidableEq

/-- First match of the source regex (one or more digits, an optional single
dot, then zero or more digits) in a character list, exactly as re.findall
at src/new_scrape.py line 249 finds it: scan left to right for the first
digit, take the maximal digit run, then an optional dot, then the following
maximal digit run. -/
def findNumber : List Char → Option (List Char)
  | [] => none
  | c :: cs =>
    if c.isDigit then
      match (spanDigits (c :: cs)).2 with
      | '.' :: r2 => some ((spanDigits (c :: cs)).1 ++ '.' :: (spanDigits r2).1)
      | _ => some (spanDigits (c :: cs)).1
    else findNumber cs

/-- Numeric coercion of one element text, modelling src/new_scrape.py lines
247-257: find the first match of the number regex; if none, append None
(absent); otherwise parse as float when the match contains a dot and as int
when it does not, falling back to the raw text if the parse raises. -/
def numericValue (t : String) : Value :=
  match findNumber t.data with
  | none => Value.absent
  | some m =>
    if containsDot m then
      match pyFloat m with
      | some fv => Value.floatNum fv.1 fv.2
      | none => Value.text t
    else
      match pyInt m with
      | some n => Value.intNum n
      | none => Value.text t

/-- Modelled from the claim wording of the numeric pattern, namely optional
digits, an optional single decimal point, then at least one digit: the
leftmost-greedy first match of that pattern, for comparison against the
pattern the source actually uses.  A match can start at a digit (maximal
digit run, then an optional dot followed by a further digit run, the dot
kept only when at least one digit follows it) or at a dot that is
immediately followed by a digit. -/
def claimMatchNumber : List Char → Option (List Char)
  | [] => none
  | c :: cs =>
    if c.isDigit then
      match (spanDigits (c :: cs)).2 with
      | '.' :: r2 =>
        if (spanDigits r2).1.isEmpty then some (spanDigits (c :: cs)).1
        else some ((spanDigits (c :: cs)).1 ++ '.' :: (spanDigits r2).1)
      | _ => some (spanDigits (c :: cs)).1
    else if c == '.' then
      match cs with
      | d :: _ => if d.isDigit then some ('.' :: (spanDigits cs).1) else claimMatchNumber cs
      | [] => none
    else claimMatchNumber cs

/-- Modelled from the claim wording: numeric coercion using the claim's
number pattern instead of the source's, with the same int/float/absent
policy. -/
def claimNumericValue (t : String) : Value :=
  match claimMatchNumber t.data with
  | none => Value.absent
  | some m =>
    if containsDot m then
      match pyFloat m with
      | some fv => Value.floatNum fv.1 fv.2
      | none => Value.text t
    else
      match pyInt m with
      | some n => Value.intNum n
      | none => Value.text t

/-! ### The document model -/

/-- One HTML element as the extractor observes it: tag name, the class
attribute as its list of whitespace-separated tokens (html.parser yields a
token list; an element without a class attribute has the empty list), the
optional href attribute, and the stripped visible text. -/
structure Element where
  tag : String
  classes : List String
  href : Option String
  text : String
deriving DecidableEq

/-- A user column specification, matching the dict built at
src/new_scrape.py lines 354-359: name, tag, link flag, numeric flag.  The
CSS class selector travels in a parallel list, as in the source. -/
structure ColumnSpec where
  name : String
  tag : String
  is_link : Bool
  as_numeric : Bool
deriving DecidableEq

/-- Join class tokens with single spaces, reconstructing the raw class
string that BeautifulSoup compares against a string-valued class filter. -/
def joinSpace : List String → String
  | [] => ""
  | [c] => c
  | c :: cs => c ++ " " ++ joinSpace cs

/-- BeautifulSoup matching of find_all with a string class filter: the
string matches when it equals one of the element's class tokens or the
element's whole raw class string. -/
def bs4ClassMatch (sel : String) (e : Element) : Bool :=
  e.classes.contains sel || joinSpace e.classes == sel

/-- Strategy 1 of the source (src/new_scrape.py line 214): exact class
match via find_all with the tag and the selector string. -/
def strategy1 (doc : List Element) (tag sel : String) : List Element :=
  doc.filter (fun e => e.tag == tag && bs4ClassMatch sel e)

/-- Strategy 2 of the source (src/new_scrape.py lines 218-224): split the
selector on dots, and for every non-empty part collect the elements of the
tag having a class token in which the part occurs as a substring (modelling
find_all with re.compile of the part, the parts being literal here), the
per-part result lists concatenated in part order. -/
def strategy2 (doc : List Element) (tag sel : String) : List Element :=
  (((splitOnDot sel.data).filter (fun p => !p.isEmpty)).map
    (fun part => doc.filter
      (fun e => e.tag == tag && e.classes.any (fun c => hasSub c.data part)))).flatten

/-- Strategy 3 of the source (src/new_scrape.py lines 227-233): the CSS
selector built as tag, dot, selector.  Splitting the selector on dots gives
the class tokens the CSS engine requires simultaneously; an empty token
makes the selector syntactically invalid, which soupsieve reports as an
exception, modelled as none. -/
def cssSelect (doc : List Element) (tag sel : String) : Option (List Element) :=
  if (splitOnDot sel.data).any (fun t => t.isEmpty) then none
  else some (doc.filter
    (fun e => e.tag == tag &&
      (splitOnDot sel.data).all (fun t => e.classes.any (fun c => c.data == t))))

/-- Elements after the strategy-2 stage together with whether strategy 2
was attempted, mirroring the guard at src/new_scrape.py line 218: only when
strategy 1 found nothing and the selector contains a dot. -/
def stage2 (doc : List Element) (tag sel : String) : List Element × Bool :=
  if (strategy1 doc tag sel).isEmpty && containsDot sel.data then
    (strategy1 doc tag sel ++ strategy2 doc tag sel, true)
  else (strategy1 doc tag sel, false)

/-- Elements after the strategy-3 stage together with whether strategy 3
was attempted, mirroring the guard at src/new_scrape.py line 227: only when
the element list is still empty.  A syntactically invalid CSS selector
leaves the element list unchanged, as the caught exception does in the
source. -/
def stage3 (doc : List Element) (tag sel : String) : List Element × Bool :=
  if (stage2 doc tag sel).1.isEmpty then
    (match cssSelect doc tag sel with
     | some es => es
     | none => (stage2 doc tag sel).1, true)
  else ((stage2 doc tag sel).1, false)

/-- Trace of one selector resolution: how many elements strategy 1 found
and whether strategies 2 and 3 were attempted. -/
structure ResolveTrace where
  s1Count : Nat
  s2Attempted : Bool
  s3Attempted : Bool
deriving DecidableEq

/-- Full selector resolution for one column (src/new_scrape.py lines
210-233): the final element list and the strategy trace. -/
def resolve (doc : List Element) (tag sel : String) : List Element × ResolveTrace :=
  ((stage3 doc tag sel).1,
   ⟨(strategy1 doc tag sel).length, (stage2 doc tag sel).2, (stage3 doc tag sel).2⟩)

/-! ### Per-element value extraction -/

/-- Model of urllib.parse.urljoin restricted to the href shapes relevant
here: an absolute http or https URL is returned unchanged, anything else is
resolved against the base (approximated as concatenation; no claim in this
development depends on the resolved value, only on a Link value being
produced). -/
def urljoin (base href : String) : String :=
  if listStarts "http://".data href.data || listStarts "https://".data href.data then href
  else base ++ href

/-- Value produced from one matched element, modelling src/new_scrape.py
lines 236-259: the link flag takes precedence and yields the absolutised
href or the absent marker when the element has no href; otherwise the
numeric flag applies the numeric coercion to the stripped text; otherwise
the stripped text itself is kept. -/
def extractOne (url : String) (col : ColumnSpec) (e : Element) : Value :=
  if col.is_link then
    match e.href with
    | some h => Value.link (urljoin url h)
    | none => Value.absent
  else if col.as_numeric then numericValue e.text
  else Value.text e.text

/-! ### The data dictionary -/

/-- Keys of a Python dict built by comprehension over a name list:
first-occurrence order with later duplicates collapsed, as in the dict
comprehension at src/new_scrape.py line 201. -/
def pyDictKeys (seen : List String) : List String → List String
  | [] => []
  | n :: ns => if seen.contains n then pyDictKeys seen ns else n :: pyDictKeys (n :: seen) ns

/-- The initial data dictionary of src/new_scrape.py line 201: one empty
list per column whose name is non-empty (Python truthiness of the name),
keyed in first-occurrence order. -/
def initData (cols : List ColumnSpec) : List (String × List Value) :=
  (pyDictKeys [] ((cols.map ColumnSpec.name).filter (fun n => !(n == "")))).map
    (fun n => (n, ([] : List Value)))

/-- Append a list of values to the entry of the given key, modelling the
repeated list append calls on one dict entry. -/
def dictAppendMany (d : List (String × List Value)) (key : String) (vs : List Value) :
    List (String × List Value) :=
  d.map (fun kv => if kv.1 = key then (kv.1, kv.2 ++ vs) else kv)

/-- One iteration of the extraction loop of src/new_scrape.py lines
204-263 for the pair of a column spec and its CSS class string: skip when
the class string or the name is empty (Python falsiness, line 205),
otherwise resolve the selector and append the per-element values to the
column's dict entry. -/
def stepColumn (doc : List Element) (url : String) (d : List (String × List Value))
    (p : ColumnSpec × String) : List (String × List Value) :=
  if p.2 = "" ∨ p.1.name = "" then d
  else dictAppendMany d p.1.name ((resolve doc p.1.tag p.2).1.map (extractOne url p.1))

/-- The data dictionary after the whole extraction loop: fold of the
per-column step over the zip of the column specs and the class strings,
starting from the initial dictionary. -/
def extractData (doc : List Element) (url : String) (cols : List ColumnSpec)
    (css : List String) : List (String × List Value) :=
  (List.zip cols css).foldl (stepColumn doc url) (initData cols)

/-! ### Table assembly -/

/-- Maximum column length, computed exactly as the loop at
src/new_scrape.py lines 270-273: fold of max over the value lists starting
from zero. -/
def maxLen (data : List (String × List Value)) : Nat :=
  data.foldl (fun m kv => max m kv.2.length) 0

/-- Right-pad one column with the absent marker up to the given length when
it is shorter, as at src/new_scrape.py lines 279-282. -/
def padColumn (m : Nat) (kv : String × List Value) : String × List Value :=
  if kv.2.length < m then (kv.1, kv.2 ++ List.replicate (m - kv.2.length) Value.absent)
  else kv

/-- Result of one scrape call: the optional table (the padded data
dictionary, which pandas turns into the DataFrame) and the error list. -/
structure ScrapeRet where
  df : Option (List (String × List Value))
  errors : List String
deriving DecidableEq

/-- Table assembly from the extracted data, modelling src/new_scrape.py
lines 265-285: when every column is empty, fail with the no-data-found
error; when the maximum length is zero, fail with the no-data-extracted
error; otherwise pad every shorter column and return the table together
with the accumulated extraction errors. -/
def finalize (data : List (String × List Value)) (errs : List String) : ScrapeRet :=
  if data.all (fun kv => kv.2.isEmpty) then
    ⟨none, ["No data found with the specified selectors"]⟩
  else if maxLen data = 0 then ⟨none, ["No data extracted"]⟩
  else ⟨some (data.map (padColumn (maxLen data))), errs⟩

/-! ### Static acquisition -/

/-- Outcome of the HTTP GET at src/new_scrape.py line 181: either a
response carrying a status code and the parsed body, or a raised transport
exception carrying its message. -/
inductive HttpFetch where
  | response : Nat → List Element → HttpFetch
  | transportError : String → HttpFetch
deriving DecidableEq

/-- Model of scrape_with_requests (src/new_scrape.py lines 166-288): a
raised transport exception is caught by the outer handler and reported as a
critical error; a response with status other than 200 is reported as an
HTTP error; otherwise the body is parsed and run through extraction and
assembly.  The per-element exception handler at lines 260-261 is
unreachable in this pure model, so the extraction error list is empty. -/
def scrape_with_requests (fetch : HttpFetch) (url : String) (cols : List ColumnSpec)
    (css : List String) : ScrapeRet :=
  match fetch with
  | HttpFetch.transportError msg => ⟨none, ["Critical error: " ++ msg]⟩
  | HttpFetch.response status doc =>
    if status ≠ 200 then ⟨none, ["HTTP Error: " ++ toString status]⟩
    else finalize (extractData doc url cols css) []

/-! ### Page inspector -/

/-- Search of an alternation of literal patterns in a character list:
models re.search with a pattern that is an alternation of plain literals,
succeeding when any of the alternatives occurs as a substring. -/
def altSearch (pats : List (List Char)) (s : List Char) : Bool :=
  pats.any (fun p => hasSub s p)

/-- The three literal alternatives of the card-pattern regex at
src/new_scrape.py line 153.  The source compiles it without the
IGNORECASE flag, so matching is case-sensitive. -/
def cardPattern : List (List Char) :=
  ["card".data, "item".data, "result".data]

/-- Card-like element count of debug_page_content (src/new_scrape.py lines
152-154): the number of elements whose class attribute has a token in
which the card pattern matches.  Elements without a class attribute have no
tokens and never match, as in find_all with a class filter. -/
def cardLikeCount (doc : List Element) : Nat :=
  (doc.filter (fun e => e.classes.any (fun c => altSearch cardPattern c.data))).length

/-- Modelled from the spec claim wording, which calls the card pattern
case-insensitive: the same count with every class token lowered before
matching, for comparison against the case-sensitive count the source
computes. -/
def cardLikeCountCI (doc : List Element) : Nat :=
  (doc.filter (fun e =>
    e.classes.any (fun c => altSearch cardPattern (c.data.map Char.toLower)))).length

/-! ### Rendered (Selenium) acquisition -/

/-- Environment of one Selenium scrape: whether the Selenium import
succeeded, whether driver setup returned a driver (setup_selenium_driver
catches its own exceptions and returns None on failure), whether
navigation raised, and whether reading the title or page source raised,
with the respective exception messages. -/
structure SeleniumEnv where
  seleniumAvailable : Bool
  driverOk : Bool
  navOk : Bool
  navErrMsg : String
  pageOk : Bool
  pageErrMsg : String
deriving DecidableEq

/-- Result of one Selenium scrape call: the optional table, the error
list, and whether driver.quit was called before returning. -/
structure SelRet where
  df : Option (List (String × List Value))
  errors : List String
  driverQuit : Bool
deriving DecidableEq

/-- The apostrophe character as a string, for building the Python
NameError message verbatim. -/
def apos : String := String.singleton (Char.ofNat 39)

/-- The error the Selenium path actually returns once navigation and page
capture succeed: src/new_scrape.py line 318 calls
scrape_with_requests_logic, a name defined nowhere in the repository, so
Python raises NameError, which the handler at lines 320-321 converts into
this message. -/
def nameErrorMsg : String :=
  "Selenium error: name " ++ apos ++ "scrape_with_requests_logic" ++ apos ++ " is not defined"

/-- Model of scrape_with_selenium (src/new_scrape.py lines 290-324).  The
try body runs under a handler converting any exception into a Selenium
error result, and a finally block quits the driver whenever one was
created.  Exception points after driver creation are navigation (line 305)
and the title and page-source reads (lines 306 and 312), modelled by the
environment flags; after those succeed the call to the undefined name
scrape_with_requests_logic raises NameError unconditionally, so the column
specs and class strings are never consulted. -/
def scrape_with_selenium (env : SeleniumEnv) (_url : String) (_cols : List ColumnSpec)
    (_css : List String) : SelRet :=
  if env.seleniumAvailable = false then ⟨none, ["Selenium not available"], false⟩
  else if env.driverOk = false then ⟨none, ["Failed to setup Chrome driver"], false⟩
  else if env.navOk = false then ⟨none, ["Selenium error: " ++ env.navErrMsg], true⟩
  else if env.pageOk = false then ⟨none, ["Selenium error: " ++ env.pageErrMsg], true⟩
  else ⟨none, [nameErrorMsg], true⟩

/-- The value lists stored in the data dictionary at the given key; with
the keys unique this is a singleton, but the lemmas about it need no
uniqueness. -/
def colVals (d : List (String × List Value)) (n : String) : List (List Value) :=
  (d.filter (fun kv => kv.1 == n)).map Prod.snd

/-- Three already-extracted columns of lengths five, three and five, the
table-assembly example of the specification. -/
def exCols535 : List (String × List Value) :=
  [("A", List.replicate 5 (Value.text "a")),
   ("B", List.replicate 3 (Value.text "b")),
   ("C", List.replicate 5 (Value.text "c"))]

/-! ### Helper lemmas about the string primitives -/

theorem listStarts_iff (p l : List Char) : listStarts p l = true ↔ ∃ r, l = p ++ r := by
  induction p generalizing l with
  | nil => simp [listStarts]
  | cons x xs ih =>
    cases l with
    | nil => simp [listStarts]
    | cons c cs =>
      simp only [listStarts, Bool.and_eq_true, beq_iff_eq, ih, List.cons_append,
        List.cons.injEq]
      constructor
      · rintro ⟨hx, r, hr⟩
        exact ⟨r, hx.symm, hr⟩
      · rintro ⟨r, hx, hr⟩
        exact ⟨hx.symm, r, hr⟩

theorem hasSub_iff (hay needle : List Char) :
    hasSub hay needle = true ↔ ∃ a b, hay = a ++ needle ++ b := by
  induction hay with
  | nil =>
    simp only [hasSub, List.isEmpty_iff]
    constructor
    · rintro rfl
      exact ⟨[], [], rfl⟩
    · rintro ⟨a, b, h⟩
      rcases List.append_eq_nil.mp h.symm with ⟨h1, h2⟩
      exact (List.append_eq_nil.mp h1).2
  | cons c t ih =>
    simp only [hasSub, Bool.or_eq_true, listStarts_iff, ih]
    constructor
    · rintro (⟨r, hr⟩ | ⟨a, b, hab⟩)
      · exact ⟨[], r, by simpa using hr⟩
      · exact ⟨c :: a, b, by simp [hab]⟩
    · rintro ⟨a, b, hab⟩
      cases a with
      | nil => exact Or.inl ⟨b, by simpa using hab⟩
      | cons x xs =>
        right
        refine ⟨xs, b, ?_⟩
        simpa using (List.cons.inj hab).2

theorem spanDigits_fst_digits (l : List Char) : (spanDigits l).1.all Char.isDigit = true := by
  induction l with
  | nil => simp [spanDigits]
  | cons c cs ih =>
    by_cases h : c.isDigit
    · simp [spanDigits, h, ih]
    · simp [spanDigits, h]

theorem digits_no_dot (l : List Char) (h : l.all Char.isDigit = true) :
    containsDot l = false := by
  induction l with
  | nil => simp [containsDot]
  | cons c cs ih =>
    simp only [List.all_cons, Bool.and_eq_true] at h
    simp only [containsDot, List.any_cons, Bool.or_eq_false_iff]
    refine ⟨?_, by simpa [containsDot] using ih h.2⟩
    cases hc : c == '.'
    · rfl
    · exact absurd h.1 (by simp [eq_of_beq hc])

theorem containsDot_append_dot (a b : List Char) : containsDot (a ++ '.' :: b) = true := by
  simp [containsDot]

/-- Shape of any substring matched by the source number regex: either a
non-empty all-digit run without a dot, or a non-empty digit run, a dot and
a further digit run. -/
theorem findNumber_shape (l m : List Char) (h : findNumber l = some m) :
    (m ≠ [] ∧ m.all Char.isDigit = true ∧ containsDot m = false) ∨
    (∃ a b, m = a ++ '.' :: b ∧ a ≠ [] ∧ a.all Char.isDigit = true ∧
      b.all Char.isDigit = true) := by
  induction l with
  | nil => simp [findNumber] at h
  | cons c cs ih =>
    by_cases hd : c.isDigit
    · have hfst : (spanDigits (c :: cs)).1 = c :: (spanDigits cs).1 := by
        simp [spanDigits, hd]
      rcases hr : (spanDigits (c :: cs)).2 with _ | ⟨x, r2⟩
      · simp only [findNumber, hd, if_pos, hr, Option.some.injEq] at h
        subst h
        exact Or.inl ⟨by simp [hfst], spanDigits_fst_digits _,
          digits_no_dot _ (spanDigits_fst_digits _)⟩
      · by_cases hx : x = '.'
        · subst hx
          simp only [findNumber, hd, if_pos, hr, Option.some.injEq] at h
          subst h
          exact Or.inr ⟨(spanDigits (c :: cs)).1, (spanDigits r2).1, rfl,
            by simp [hfst], spanDigits_fst_digits _, spanDigits_fst_digits _⟩
        · have hfn : findNumber (c :: cs) = some (spanDigits (c :: cs)).1 := by
            simp only [findNumber, hd, if_pos, hr]
            split
            next heq => exact absurd (List.cons.inj heq).1 hx
            next => rfl
          rw [hfn] at h
          obtain rfl : (spanDigits (c :: cs)).1 = m := Option.some.inj h
          exact Or.inl ⟨by simp [hfst], spanDigits_fst_digits _,
            digits_no_dot _ (spanDigits_fst_digits _)⟩
    · simp only [findNumber, hd] at h
      exact ih (by simpa using h)

theorem pyInt_digits (l : List Char) (h1 : l ≠ []) (h2 : l.all Char.isDigit = true) :
    pyInt l = some (digitsToNat l) := by
  simp [pyInt, h1, h2]

theorem breakDot_no_dot_append (a b : List Char) (h : a.all Char.isDigit = true) :
    breakDot (a ++ '.' :: b) = (a, some b) := by
  induction a with
  | nil => simp [breakDot]
  | cons c cs ih =>
    simp only [List.all_cons, Bool.and_eq_true] at h
    have hc : (c == '.') = false := by
      cases hc : c == '.'
      · rfl
      · exact absurd h.1 (by simp [eq_of_beq hc])
    simp [breakDot, hc, ih h.2]

theorem pyFloat_decimal (a b : List Char) (ha : a ≠ []) (h1 : a.all Char.isDigit = true)
    (h2 : b.all Char.isDigit = true) :
    pyFloat (a ++ '.' :: b) = some (digitsToNat (a ++ b), b.length) := by
  have hne : ((a ++ b).isEmpty) = false := by
    cases a with
    | nil => exact absurd rfl ha
    | cons x xs => simp
  simp [pyFloat, breakDot_no_dot_append a b h1, h1, h2, hne]

/-- The numeric coercion never falls back to the raw text: every substring
the number regex matches parses successfully. -/
theorem numericValue_not_text (t s : String) : numericValue t ≠ Value.text s := by
  unfold numericValue
  rcases hf : findNumber t.data with _ | m
  · simp
  · rcases findNumber_shape _ _ hf with ⟨hne, hdig, hdot⟩ | ⟨a, b, rfl, ha, h1, h2⟩
    · simp [hdot, pyInt_digits m hne hdig]
    · simp [containsDot_append_dot, pyFloat_decimal a b ha h1 h2]

/-! ### Helper lemmas about the data dictionary -/

theorem dictAppendMany_fst (d : List (String × List Value)) (k : String) (vs : List Value) :
    (dictAppendMany d k vs).map Prod.fst = d.map Prod.fst := by
  induction d with
  | nil => rfl
  | cons kv tl ih =>
    simp only [dictAppendMany, List.map_cons] at ih ⊢
    by_cases h : kv.1 = k
    · simp [h, ih]
    · simp [h, ih]

theorem stepColumn_fst (doc : List Element) (url : String) (d : List (String × List Value))
    (p : ColumnSpec × String) :
    (stepColumn doc url d p).map Prod.fst = d.map Prod.fst := by
  unfold stepColumn
  by_cases h : p.2 = "" ∨ p.1.name = ""
  · simp [h]
  · simp [h, dictAppendMany_fst]

theorem foldl_stepColumn_fst (doc : List Element) (url : String)
    (l : List (ColumnSpec × String)) (d : List (String × List Value)) :
    (l.foldl (stepColumn doc url) d).map Prod.fst = d.map Prod.fst := by
  induction l generalizing d with
  | nil => rfl
  | cons p tl ih => rw [List.foldl_cons, ih, stepColumn_fst]

theorem initData_fst (cols : List ColumnSpec) :
    (initData cols).map Prod.fst =
      pyDictKeys [] ((cols.map ColumnSpec.name).filter (fun n => !(n == ""))) := by
  simp [initData, Function.comp_def]

theorem pyDictKeys_sub (l : List String) (seen : List String) (k : String)
    (h : k ∈ pyDictKeys seen l) : k ∈ l := by
  induction l generalizing seen with
  | nil => simp [pyDictKeys] at h
  | cons n ns ih =>
    simp only [pyDictKeys] at h
    by_cases hs : seen.contains n = true
    · rw [if_pos hs] at h
      exact List.mem_cons_of_mem _ (ih _ h)
    · rw [if_neg hs] at h
      rcases List.mem_cons.mp h with heq | hmem
      · exact heq ▸ List.mem_cons_self _ _
      · exact List.mem_cons_of_mem _ (ih _ hmem)

theorem colVals_dictAppendMany_ne (d : List (String × List Value)) (k n : String)
    (vs : List Value) (h : k ≠ n) :
    colVals (dictAppendMany d k vs) n = colVals d n := by
  have hkn : (k == n) = false := beq_eq_false_iff_ne.mpr h
  induction d with
  | nil => rfl
  | cons kv tl ih =>
    by_cases h1 : kv.1 = k
    · calc colVals (dictAppendMany (kv :: tl) k vs) n
          = colVals (dictAppendMany tl k vs) n := by
            simp [dictAppendMany, colVals, List.filter_cons, h1, hkn]
        _ = colVals tl n := ih
        _ = colVals (kv :: tl) n := by simp [colVals, List.filter_cons, h1, hkn]
    · by_cases h2 : (kv.1 == n) = true
      · calc colVals (dictAppendMany (kv :: tl) k vs) n
            = kv.2 :: colVals (dictAppendMany tl k vs) n := by
              simp [dictAppendMany, colVals, List.filter_cons, h1, h2]
          _ = kv.2 :: colVals tl n := by rw [ih]
          _ = colVals (kv :: tl) n := by simp [colVals, List.filter_cons, h2]
      · have h2f : (kv.1 == n) = false := by
          cases hb : (kv.1 == n)
          · rfl
          · exact absurd hb h2
        calc colVals (dictAppendMany (kv :: tl) k vs) n
            = colVals (dictAppendMany tl k vs) n := by
              simp [dictAppendMany, colVals, List.filter_cons, h1, h2f]
          _ = colVals tl n := ih
          _ = colVals (kv :: tl) n := by simp [colVals, List.filter_cons, h2f]

theorem colVals_stepColumn (doc : List Element) (url : String)
    (d : List (String × List Value)) (p : ColumnSpec × String) (n : String)
    (h : p.1.name = n → p.2 = "") :
    colVals (stepColumn doc url d p) n = colVals d n := by
  unfold stepColumn
  by_cases hskip : p.2 = "" ∨ p.1.name = ""
  · rw [if_pos hskip]
  · rw [if_neg hskip]
    have hne : p.1.name ≠ n := fun he => hskip (Or.inl (h he))
    exact colVals_dictAppendMany_ne _ _ _ _ hne

theorem colVals_foldl (doc : List Element) (url : String)
    (l : List (ColumnSpec × String)) (d : List (String × List Value)) (n : String)
    (h : ∀ p ∈ l, p.1.name = n → p.2 = "") :
    colVals (l.foldl (stepColumn doc url) d) n = colVals d n := by
  induction l generalizing d with
  | nil => rfl
  | cons p tl ih =>
    rw [List.foldl_cons, ih _ (fun q hq => h q (List.mem_cons_of_mem _ hq)),
      colVals_stepColumn doc url d p n (h p (List.mem_cons_self _ _))]

theorem colVals_initData (cols : List ColumnSpec) (n : String) (v : List Value)
    (h : v ∈ colVals (initData cols) n) : v = [] := by
  unfold colVals initData at h
  rcases List.mem_map.mp h with ⟨kv, hmem, hsnd⟩
  rcases List.mem_map.mp (List.mem_of_mem_filter hmem) with ⟨k, _, hk⟩
  rw [← hsnd, ← hk]

theorem mem_colVals (d : List (String × List Value)) (kv : String × List Value)
    (h : kv ∈ d) : kv.2 ∈ colVals d kv.1 := by
  unfold colVals
  exact List.mem_map_of_mem Prod.snd (List.mem_filter.mpr ⟨h, by simp⟩)

/-! ### Helper lemmas about the maximum column length -/

theorem foldl_max_le_init (l : List (String × List Value)) (init : Nat) :
    init ≤ l.foldl (fun m kv => max m kv.2.length) init := by
  induction l generalizing init with
  | nil => exact Nat.le_refl _
  | cons kv tl ih =>
    exact Nat.le_trans (Nat.le_max_left _ _) (ih (max init kv.2.length))

theorem mem_le_foldl_max (l : List (String × List Value)) (init : Nat)
    (kv : String × List Value) (h : kv ∈ l) :
    kv.2.length ≤ l.foldl (fun m kv => max m kv.2.length) init := by
  induction l generalizing init with
  | nil => exact absurd h (List.not_mem_nil _)
  | cons hd tl ih =>
    rcases List.mem_cons.mp h with rfl | h
    · exact Nat.le_trans (Nat.le_max_right _ _) (foldl_max_le_init tl _)
    · exact ih _ h

theorem mem_le_maxLen (data : List (String × List Value)) (kv : String × List Value)
    (h : kv ∈ data) : kv.2.length ≤ maxLen data :=
  mem_le_foldl_max data 0 kv h

/-! ### Claim C2: numeric coercion -/

/-- Claim C2, counterexample: the claim describes the number pattern as
optional digits, an optional single decimal point, then at least one
digit; on the text x.5 that pattern's first match is .5, giving the float
one half, while the source pattern (one or more digits first) matches 5
and gives the int five.  The two coercions therefore disagree, refuting
the claim as stated. -/
theorem numeric_pattern_counterexample :
    numericValue "x.5" = Value.intNum 5 ∧
    claimNumericValue "x.5" = Value.floatNum 5 1 ∧
    numericValue "x.5" ≠ claimNumericValue "x.5" := by
  decide

/-- Claim C2 (amended): for a numeric column (link flag unset, numeric
flag set) the value is the numeric coercion of the element text; the
coercion takes the first substring matching the source pattern of one or
more digits, an optional single decimal point, then zero or more digits;
a match without a decimal point yields the int of its digits, a match
with a decimal point yields a float, and no match yields the absent
marker.  The three examples of the claim hold, the float 3.5 being
represented exactly as mantissa 35 with one decimal place. -/
theorem numeric_coercion_amended :
    (∀ (url : String) (col : ColumnSpec) (e : Element),
      col.is_link = false → col.as_numeric = true →
      extractOne url col e = numericValue e.text) ∧
    (∀ t : String, findNumber t.data = none → numericValue t = Value.absent) ∧
    (∀ (t : String) (m : List Char), findNumber t.data = some m →
      containsDot m = false → numericValue t = Value.intNum (digitsToNat m)) ∧
    (∀ (t : String) (m : List Char), findNumber t.data = some m →
      containsDot m = true →
      ∃ mant scale, numericValue t = Value.floatNum mant scale) ∧
    numericValue "Score: 42 pts" = Value.intNum 42 ∧
    numericValue "Rating: 3.5/5" = Value.floatNum 35 1 ∧
    numericValue "No digits here" = Value.absent := by
  refine ⟨?_, ?_, ?_, ?_, by decide, by decide, by decide⟩
  · intro url col e h1 h2
    simp [extractOne, h1, h2]
  · intro t h
    simp [numericValue, h]
  · intro t m h hdot
    rcases findNumber_shape _ _ h with ⟨hne, hdig, _⟩ | ⟨a, b, rfl, _, _, _⟩
    · simp [numericValue, h, hdot, pyInt_digits m hne hdig]
    · rw [containsDot_append_dot] at hdot
      exact absurd hdot (by simp)
  · intro t m h hdot
    rcases findNumber_shape _ _ h with ⟨_, _, hnd⟩ | ⟨a, b, rfl, ha, h1, h2⟩
    · rw [hnd] at hdot
      exact absurd hdot (by simp)
    · exact ⟨digitsToNat (a ++ b), b.length,
        by simp [numericValue, h, containsDot_append_dot, pyFloat_decimal a b ha h1 h2]⟩

/-- Claim C2, witness: a concrete int coercion and a concrete no-match
coercion obtained from the amended theorem. -/
theorem numeric_coercion_amended_witness :
    numericValue "x7" = Value.intNum (digitsToNat ['7']) ∧
    numericValue "abc" = Value.absent :=
  ⟨numeric_coercion_amended.2.2.1 "x7" ['7'] (by decide) (by decide),
   numeric_coercion_amended.2.1 "abc" (by decide)⟩

/-! ### Claim C10: the parse-failure fallback is unreachable -/

/-- Claim C10: for a numeric column (link flag unset, numeric flag set)
the raw-text fallback of the numeric coercion is unreachable, because
every substring matched by the number pattern parses successfully; hence
the extracted value is never a Text value. -/
theorem numeric_never_text : ∀ (url : String) (col : ColumnSpec) (e : Element)
    (s : String), col.is_link = false → col.as_numeric = true →
    extractOne url col e ≠ Value.text s := by
  intro url col e s h1 h2
  have h : extractOne url col e = numericValue e.text := by simp [extractOne, h1, h2]
  rw [h]
  exact numericValue_not_text e.text s

/-- Claim C10, witness: a concrete numeric column value that is not the
raw text even though the text contains junk around the number. -/
theorem numeric_never_text_witness :
    extractOne "u" ⟨"N", "div", false, true⟩ ⟨"div", [], none, "abc 12.5"⟩ ≠
      Value.text "abc 12.5" :=
  numeric_never_text "u" ⟨"N", "div", false, true⟩ ⟨"div", [], none, "abc 12.5"⟩
    "abc 12.5" rfl rfl

/-! ### Claim C3: strategy short-circuiting -/

theorem isEmpty_false_of_ne {α : Type} {l : List α} (h : l ≠ []) : l.isEmpty = false := by
  cases hx : l.isEmpty
  · rfl
  · exact absurd (List.isEmpty_iff.mp hx) h

/-- Claim C3: the three selector-resolution strategies short-circuit.
When strategy 1 finds at least one element, strategies 2 and 3 are never
attempted and the result is exactly the strategy-1 element list; strategy
2 is attempted exactly when strategy 1 found nothing and the selector
contains a dot; strategy 3 is attempted exactly when strategy 1 found
nothing and strategy 2, when it ran at all, also found nothing. -/
theorem strategy_short_circuit : ∀ (doc : List Element) (tag sel : String),
    (strategy1 doc tag sel ≠ [] →
      (resolve doc tag sel).2.s2Attempted = false ∧
      (resolve doc tag sel).2.s3Attempted = false ∧
      (resolve doc tag sel).1 = strategy1 doc tag sel) ∧
    ((resolve doc tag sel).2.s2Attempted = true ↔
      strategy1 doc tag sel = [] ∧ containsDot sel.data = true) ∧
    ((resolve doc tag sel).2.s3Attempted = true ↔
      strategy1 doc tag sel = [] ∧
        (containsDot sel.data = true → strategy2 doc tag sel = [])) := by
  intro doc tag sel
  by_cases he : strategy1 doc tag sel = []
  · have hee : (strategy1 doc tag sel).isEmpty = true := List.isEmpty_iff.mpr he
    by_cases hd : containsDot sel.data = true
    · have hs2 : stage2 doc tag sel = (strategy2 doc tag sel, true) := by
        simp [stage2, hee, hd, he]
      by_cases hs2e : strategy2 doc tag sel = []
      · have hs3 : (stage3 doc tag sel).2 = true := by
          unfold stage3
          rw [if_pos (by rw [hs2]; exact List.isEmpty_iff.mpr hs2e)]
        exact ⟨fun hne => absurd he hne,
          by simp [resolve, hs2, he, hd],
          by simp [resolve, hs3, he, hd, hs2e]⟩
      · have hs3 : (stage3 doc tag sel).2 = false := by
          unfold stage3
          rw [if_neg (by rw [hs2]; simp [isEmpty_false_of_ne hs2e])]
        exact ⟨fun hne => absurd he hne,
          by simp [resolve, hs2, he, hd],
          by simp [resolve, hs3, he, hd, hs2e]⟩
    · have hdf : containsDot sel.data = false := by
        cases hx : containsDot sel.data
        · rfl
        · exact absurd hx hd
      have hs2 : stage2 doc tag sel = (strategy1 doc tag sel, false) := by
        simp [stage2, hdf]
      have hs3 : (stage3 doc tag sel).2 = true := by
        unfold stage3
        rw [if_pos (by rw [hs2]; exact hee)]
      exact ⟨fun hne => absurd he hne,
        by simp [resolve, hs2, he, hdf],
        by simp [resolve, hs3, he, hdf]⟩
  · have hee : (strategy1 doc tag sel).isEmpty = false := isEmpty_false_of_ne he
    have hs2 : stage2 doc tag sel = (strategy1 doc tag sel, false) := by
      simp [stage2, hee]
    have hs3 : stage3 doc tag sel = (strategy1 doc tag sel, false) := by
      unfold stage3
      rw [if_neg (by rw [hs2]; simp [hee])]
      rw [hs2]
    exact ⟨fun _ => ⟨by simp [resolve, hs2], by simp [resolve, hs3], by simp [resolve, hs3]⟩,
      by simp [resolve, hs2, he],
      by simp [resolve, hs3, he]⟩

/-- Claim C3, witness: on a document where strategy 1 matches, neither
strategy 2 nor strategy 3 is attempted and the resolved elements are the
strategy-1 matches. -/
theorem strategy_short_circuit_witness :
    (resolve [⟨"div", ["x"], none, "t"⟩] "div" "x").2.s2Attempted = false ∧
    (resolve [⟨"div", ["x"], none, "t"⟩] "div" "x").2.s3Attempted = false ∧
    (resolve [⟨"div", ["x"], none, "t"⟩] "div" "x").1 =
      strategy1 [⟨"div", ["x"], none, "t"⟩] "div" "x" :=
  (strategy_short_circuit [⟨"div", ["x"], none, "t"⟩] "div" "x").1 (by decide)

/-! ### Claim C4: padding to the maximum column length -/

/-- Claim C4: when at least one extracted column is non-empty, assembly
produces the table in which every column is its original value list
right-padded with absent markers up to the maximum column length, so
every column of the table has length exactly that maximum and no column
is ever truncated. -/
theorem padding_invariant : ∀ (data : List (String × List Value)) (errs : List String),
    (∃ kv, kv ∈ data ∧ kv.2 ≠ []) →
    (finalize data errs).df = some (data.map (padColumn (maxLen data))) ∧
    (∀ kv, kv ∈ data.map (padColumn (maxLen data)) → kv.2.length = maxLen data) ∧
    (∀ kv, kv ∈ data →
      ∃ k, padColumn (maxLen data) kv = (kv.1, kv.2 ++ List.replicate k Value.absent)) := by
  intro data errs h
  obtain ⟨kv0, hmem, hne⟩ := h
  have hall : (data.all (fun kv => kv.2.isEmpty)) = false := by
    cases hx : data.all (fun kv => kv.2.isEmpty)
    · rfl
    · exact absurd (List.isEmpty_iff.mp (List.all_eq_true.mp hx kv0 hmem)) hne
  have hpos : 0 < maxLen data :=
    Nat.lt_of_lt_of_le (List.length_pos.mpr hne) (mem_le_maxLen data kv0 hmem)
  have hmz : ¬ (maxLen data = 0) := Nat.pos_iff_ne_zero.mp hpos
  refine ⟨by simp [finalize, hall, hmz], ?_, ?_⟩
  · intro kv hkv
    obtain ⟨kv1, hkv1, rfl⟩ := List.mem_map.mp hkv
    have hle := mem_le_maxLen data kv1 hkv1
    by_cases hlt : kv1.2.length < maxLen data
    · simp [padColumn, hlt, Nat.add_sub_cancel' (Nat.le_of_lt hlt)]
    · have heq : kv1.2.length = maxLen data := Nat.le_antisymm hle (Nat.le_of_not_lt hlt)
      simp [padColumn, hlt, heq]
  · intro kv _
    by_cases hlt : kv.2.length < maxLen data
    · exact ⟨maxLen data - kv.2.length, by simp [padColumn, hlt]⟩
    · exact ⟨0, by simp [padColumn, hlt]⟩

/-- Claim C4, witness: columns of lengths five, three and five assemble
into a table of length five whose middle column is padded with exactly
two trailing absent markers. -/
theorem padding_invariant_witness :
    (finalize exCols535 []).df = some (exCols535.map (padColumn (maxLen exCols535))) ∧
    maxLen exCols535 = 5 ∧
    exCols535.map (padColumn (maxLen exCols535)) =
      [("A", List.replicate 5 (Value.text "a")),
       ("B", List.replicate 3 (Value.text "b") ++ List.replicate 2 Value.absent),
       ("C", List.replicate 5 (Value.text "c"))] :=
  ⟨(padding_invariant exCols535 []
      ⟨("A", List.replicate 5 (Value.text "a")), by decide, by decide⟩).1,
   by decide, by decide⟩

/-! ### Claim C9: the no-data-extracted branch is unreachable -/

/-- Claim C9: whenever the extraction pipeline reaches table assembly
with its empty extraction-error list, the no-data-extracted failure
branch is unreachable; the only terminal no-data error observable from
extraction is the no-data-found message, which is exactly what assembly
returns whenever it produces no table. -/
theorem no_data_extracted_unreachable : ∀ (doc : List Element) (url : String)
    (cols : List ColumnSpec) (css : List String),
    ((finalize (extractData doc url cols css) []).df = none →
      (finalize (extractData doc url cols css) []).errors =
        ["No data found with the specified selectors"]) ∧
    (finalize (extractData doc url cols css) []).errors ≠ ["No data extracted"] := by
  intro doc url cols css
  set data := extractData doc url cols css with hdata
  by_cases hall : data.all (fun kv => kv.2.isEmpty) = true
  · constructor
    · intro _
      simp [finalize, hall]
    · simp [finalize, hall]
  · have hallf : data.all (fun kv => kv.2.isEmpty) = false := by
      cases hx : data.all (fun kv => kv.2.isEmpty)
      · rfl
      · exact absurd hx hall
    have hx : ¬ ∀ kv ∈ data, kv.2.isEmpty = true := by
      intro ha
      exact absurd (List.all_eq_true.mpr ha) hall
    push_neg at hx
    obtain ⟨kv0, hmem, hne⟩ := hx
    have hne2 : kv0.2 ≠ [] := fun hnil => hne (by simp [hnil])
    have hpos : 0 < maxLen data :=
      Nat.lt_of_lt_of_le (List.length_pos.mpr hne2) (mem_le_maxLen data kv0 hmem)
    have hmz : ¬ (maxLen data = 0) := Nat.pos_iff_ne_zero.mp hpos
    constructor
    · intro hdf
      rw [show (finalize data []).df = some (data.map (padColumn (maxLen data))) from
        by simp [finalize, hallf, hmz]] at hdf
      exact absurd hdf (by simp)
    · simp [finalize, hallf, hmz]

/-- Claim C9, witness: with no columns configured, assembly produces no
table and the error is the no-data-found message, not the
no-data-extracted one. -/
theorem no_data_extracted_unreachable_witness :
    (finalize (extractData [] "u" [] []) []).errors =
      ["No data found with the specified selectors"] :=
  (no_data_extracted_unreachable [] "u" [] []).1 (by decide)

/-! ### Claim C1: the skip invariant -/

/-- Claim C1, counterexample: a spec with non-empty name but empty
selector does produce a column.  With one matching spec and one
empty-selector spec, the data dictionary still holds a key for the
second spec and the assembled table contains two columns, the second
filled with an absent marker, although only one spec has both a
non-empty name and a non-empty selector. -/
theorem skip_claim_counterexample :
    ("B", ([] : List Value)) ∈ extractData [⟨"div", ["x"], none, "hello"⟩] "u"
      [⟨"A", "div", false, false⟩, ⟨"B", "div", false, false⟩] ["x", ""] ∧
    (finalize (extractData [⟨"div", ["x"], none, "hello"⟩] "u"
      [⟨"A", "div", false, false⟩, ⟨"B", "div", false, false⟩] ["x", ""]) []).df =
      some [("A", [Value.text "hello"]), ("B", [Value.absent])] ∧
    ((List.zip [(⟨"A", "div", false, false⟩ : ColumnSpec), ⟨"B", "div", false, false⟩]
        ["x", ""]).filter (fun p => !(p.1.name == "") && !(p.2 == ""))).length = 1 := by
  decide

/-- Claim C1 (amended): the data dictionary is keyed exactly by the
distinct non-empty names in spec order, so a spec with empty name
produces no column anywhere; and a column all of whose specs have an
empty selector receives no extracted values, so the extraction loop
skips such specs entirely — but a spec with non-empty name and empty
selector still contributes its (empty, later absent-padded) column to
the dictionary and hence to the assembled table. -/
theorem skip_invariant_amended : ∀ (doc : List Element) (url : String)
    (cols : List ColumnSpec) (css : List String),
    ((extractData doc url cols css).map Prod.fst =
      pyDictKeys [] ((cols.map ColumnSpec.name).filter (fun n => !(n == "")))) ∧
    (∀ kv, kv ∈ extractData doc url cols css → kv.1 ≠ "") ∧
    (∀ kv, kv ∈ extractData doc url cols css →
      (∀ p, p ∈ List.zip cols css → p.1.name = kv.1 → p.2 = "") → kv.2 = []) := by
  intro doc url cols css
  have hfst : (extractData doc url cols css).map Prod.fst =
      pyDictKeys [] ((cols.map ColumnSpec.name).filter (fun n => !(n == ""))) := by
    unfold extractData
    rw [foldl_stepColumn_fst, initData_fst]
  refine ⟨hfst, ?_, ?_⟩
  · intro kv hkv
    have h1 : kv.1 ∈ (extractData doc url cols css).map Prod.fst :=
      List.mem_map_of_mem Prod.fst hkv
    rw [hfst] at h1
    have h2 := pyDictKeys_sub _ _ _ h1
    have h3 := List.mem_filter.mp h2
    simpa using h3.2
  · intro kv hkv hall
    have h1 : kv.2 ∈ colVals (extractData doc url cols css) kv.1 :=
      mem_colVals _ _ hkv
    unfold extractData at h1
    rw [colVals_foldl doc url _ _ _ (fun p hp => hall p hp)] at h1
    exact colVals_initData cols kv.1 kv.2 h1

/-- Claim C1, witness: a single spec with non-empty name and empty
selector yields a dictionary with exactly its name as key and an empty
value list. -/
theorem skip_invariant_amended_witness :
    (("B", ([] : List Value)) : String × List Value).2 = ([] : List Value) ∧
    (extractData [] "u" [⟨"B", "div", false, false⟩] [""]).map Prod.fst = ["B"] :=
  ⟨(skip_invariant_amended [] "u" [⟨"B", "div", false, false⟩] [""]).2.2
      ("B", []) (by decide) (by decide),
   by decide⟩

/-! ### Claim C6: HTTP status handling -/

/-- Claim C6, counterexample: status 204 is a 2xx success status, yet the
source compares against 200 exactly and reports an HTTP error for it,
refuting the claim that failure occurs exactly on non-2xx statuses. -/
theorem http_status_counterexample :
    scrape_with_requests (HttpFetch.response 204 []) "u" [] [] =
      ⟨none, ["HTTP Error: 204"]⟩ ∧
    200 ≤ 204 ∧ 204 < 300 := by
  decide

/-- Claim C6 (amended): the static acquisition fails with the HTTP error
message exactly when the status code differs from 200 (not merely when
it is non-2xx); on status 200 it proceeds to extraction and assembly;
and a raised transport exception is reported as a critical error with
its message. -/
theorem http_status_amended :
    (∀ (url : String) (cols : List ColumnSpec) (css : List String) (status : Nat)
        (doc : List Element), ¬ status = 200 →
      scrape_with_requests (HttpFetch.response status doc) url cols css =
        ⟨none, ["HTTP Error: " ++ toString status]⟩) ∧
    (∀ (url : String) (cols : List ColumnSpec) (css : List String)
        (doc : List Element),
      scrape_with_requests (HttpFetch.response 200 doc) url cols css =
        finalize (extractData doc url cols css) []) ∧
    (∀ (url : String) (cols : List ColumnSpec) (css : List String) (msg : String),
      scrape_with_requests (HttpFetch.transportError msg) url cols css =
        ⟨none, ["Critical error: " ++ msg]⟩) := by
  refine ⟨?_, ?_, ?_⟩
  · intro url cols css status doc h
    simp [scrape_with_requests, h]
  · intro url cols css doc
    simp [scrape_with_requests]
  · intro url cols css msg
    rfl

/-- Claim C6, witness: a concrete 404 response yields the HTTP error
result. -/
theorem http_status_amended_witness :
    scrape_with_requests (HttpFetch.response 404 []) "u" [] [] =
      ⟨none, ["HTTP Error: " ++ toString 404]⟩ :=
  http_status_amended.1 "u" [] [] 404 [] (by decide)

/-! ### Claim C7: the card-like element count -/

/-- Claim C7, counterexample: the card pattern is compiled without the
ignore-case flag, so elements classed Card or RESULT are not counted,
while their lowercase forms are; the case-insensitive count the claim
describes disagrees with the count the source computes. -/
theorem card_count_counterexample :
    cardLikeCount [⟨"div", ["Card"], none, ""⟩, ⟨"span", ["RESULT"], none, ""⟩] = 0 ∧
    cardLikeCountCI [⟨"div", ["Card"], none, ""⟩, ⟨"span", ["RESULT"], none, ""⟩] = 2 ∧
    cardLikeCount [⟨"div", ["card"], none, ""⟩, ⟨"span", ["result"], none, ""⟩] = 2 := by
  decide

theorem altSearch_card_eq (s : List Char) :
    altSearch cardPattern s =
      (hasSub s "card".data || hasSub s "item".data || hasSub s "result".data) := by
  simp [altSearch, cardPattern, Bool.or_assoc]

/-- Claim C7 (amended): the card-like count equals the number of elements
having a class token in which one of the three literals card, item,
result occurs as a case-sensitive substring; occurrence of a literal is
exactly decomposability of the token around it. -/
theorem card_count_amended : ∀ (doc : List Element),
    cardLikeCount doc = (doc.filter (fun e => e.classes.any (fun c =>
      hasSub c.data "card".data || hasSub c.data "item".data ||
        hasSub c.data "result".data))).length ∧
    (∀ s : List Char, altSearch cardPattern s = true ↔
      ((∃ a b, s = a ++ "card".data ++ b) ∨ (∃ a b, s = a ++ "item".data ++ b) ∨
        (∃ a b, s = a ++ "result".data ++ b))) := by
  intro doc
  constructor
  · simp only [cardLikeCount, altSearch_card_eq]
  · intro s
    rw [altSearch_card_eq]
    simp [hasSub_iff, or_assoc]

/-- Claim C7, witness: a class token containing card as an inner
substring matches the source pattern. -/
theorem card_count_amended_witness :
    altSearch cardPattern "my-card-x".data = true :=
  ((card_count_amended []).2 "my-card-x".data).mpr
    (Or.inl ⟨"my-".data, "-x".data, by decide⟩)

/-! ### Claim C5: the Selenium path never reaches extraction -/

/-- Claim C5: contrary to the claim, when Selenium is available and
driver setup, navigation and page capture all succeed, the rendered
document is never run through the extraction and assembly logic: the
source calls the undefined name scrape_with_requests_logic, so every
such invocation returns the NameError message and no table.  This
contradicts the source's own comment announcing continuation with the
requests extraction logic, so the claim is recorded as a code bug. -/
theorem selenium_missing_logic : ∀ (env : SeleniumEnv) (url : String)
    (cols : List ColumnSpec) (css : List String),
    env.seleniumAvailable = true → env.driverOk = true → env.navOk = true →
    env.pageOk = true →
    (scrape_with_selenium env url cols css).df = none ∧
    (scrape_with_selenium env url cols css).errors = [nameErrorMsg] ∧
    (scrape_with_selenium env url cols css).driverQuit = true := by
  intro env url cols css h1 h2 h3 h4
  simp [scrape_with_selenium, h1, h2, h3, h4]

/-- Claim C5, witness: a fully successful environment still produces the
NameError result. -/
theorem selenium_missing_logic_witness :
    (scrape_with_selenium ⟨true, true, true, "", true, ""⟩ "u" [] []).df = none ∧
    (scrape_with_selenium ⟨true, true, true, "", true, ""⟩ "u" [] []).errors =
      [nameErrorMsg] ∧
    (scrape_with_selenium ⟨true, true, true, "", true, ""⟩ "u" [] []).driverQuit = true :=
  selenium_missing_logic ⟨true, true, true, "", true, ""⟩ "u" [] [] rfl rfl rfl rfl

/-! ### Claim C8: the driver is always released -/

/-- Claim C8: whenever Selenium is available and a driver was created,
every exit path of the rendered acquisition quits the driver — after a
navigation failure, after a page-capture failure, and on the path that
reaches the undefined-name call. -/
theorem driver_always_quit : ∀ (env : SeleniumEnv) (url : String)
    (cols : List ColumnSpec) (css : List String),
    env.seleniumAvailable = true → env.driverOk = true →
    (scrape_with_selenium env url cols css).driverQuit = true := by
  intro env url cols css h1 h2
  cases h3 : env.navOk
  · simp [scrape_with_selenium, h1, h2, h3]
  · cases h4 : env.pageOk
    · simp [scrape_with_selenium, h1, h2, h3, h4]
    · simp [scrape_with_selenium, h1, h2, h3, h4]

/-- Claim C8, witness: the driver is quit on a concrete navigation
failure once it was created. -/
theorem driver_always_quit_witness :
    (scrape_with_selenium ⟨true, true, false, "boom", true, ""⟩ "u" [] []).driverQuit =
      true :=
  driver_always_quit ⟨true, true, false, "boom", true, ""⟩ "u" [] [] rfl rfl

end Scrape
